import Mathlib

/-!
Verification development for the spotify_to_tidal reconciliation engine
(`src/spotify_to_tidal/sync.py`, `cache.py`, `tidalapi_patch.py`).

The Python source is shallowly embedded: pure helper functions become Lean
functions on `String`/`List`; the module-level mutable caches become explicit
state threaded through the functions; network calls (the Tidal search) become
an oracle parameter `SpotifyTrack → Option TidalTrack`; Python float division
in the duration comparison is modelled with exact rationals.  Python
truthiness of the optional ids is modelled explicitly (`pyTruthyId`,
`pyTruthyOptNat`).
-/

/-- Substring test on character lists: `listContainsSub needle hay` is the
embedding of Python's `needle in hay` on strings. -/
def listContainsSub (needle : List Char) : List Char → Bool
  | [] => needle.isEmpty
  | c :: rest => needle.isPrefixOf (c :: rest) || listContainsSub needle rest

/-- Python's `needle in hay` for strings. -/
def strContains (hay needle : String) : Bool :=
  listContainsSub needle.toList hay.toList

/-- Embedding of `' '.join(text.split())`: collapse runs of whitespace to
single spaces and drop leading/trailing whitespace. -/
def wsCollapse (s : String) : String :=
  " ".intercalate ((s.split Char.isWhitespace).filter (fun piece => piece ≠ ""))

/-- Embedding of the dash unification
`.replace(endash,'-').replace(emdash,'-').replace(minus,'-')` from `simple`. -/
def collapseDashes (s : String) : String :=
  ((s.replace "–" "-").replace "—" "-").replace "−" "-"

/-- Folding table for one character of `unicodedata.normalize('NFD', s)`
followed by `.encode('ascii','ignore')`: ASCII characters map to themselves,
the common Latin letters with a combining accent decompose to their base
letter, and every other non-ASCII character is dropped (its NFD form has no
ASCII part).  This realizes the source's `normalize` on the alphabet used in
this development. -/
def asciiFold (c : Char) : List Char :=
  if c.toNat < 128 then [c]
  else if c = 'á' ∨ c = 'à' ∨ c = 'â' ∨ c = 'ä' ∨ c = 'ã' ∨ c = 'å' then ['a']
  else if c = 'é' ∨ c = 'è' ∨ c = 'ê' ∨ c = 'ë' then ['e']
  else if c = 'í' ∨ c = 'ì' ∨ c = 'î' ∨ c = 'ï' then ['i']
  else if c = 'ó' ∨ c = 'ò' ∨ c = 'ô' ∨ c = 'ö' ∨ c = 'õ' then ['o']
  else if c = 'ú' ∨ c = 'ù' ∨ c = 'û' ∨ c = 'ü' then ['u']
  else if c = 'ñ' then ['n']
  else if c = 'ç' then ['c']
  else if c = 'Á' ∨ c = 'À' ∨ c = 'Â' ∨ c = 'Ä' then ['A']
  else if c = 'É' ∨ c = 'È' ∨ c = 'Ê' then ['E']
  else if c = 'Ñ' then ['N']
  else []

/-- Embedding of `normalize` from `sync.py`: NFD decomposition followed by
stripping of non-ASCII bytes. -/
def normalizeText (s : String) : String :=
  String.mk (s.toList.foldr (fun c acc => asciiFold c ++ acc) [])

/-- Embedding of `simple` from `sync.py`: returns the exact (whitespace- and
dash-normalized) variant and, when different, the variant truncated at the
first parenthesis or bracket. -/
def simple (input_string : String) : List String :=
  if input_string = "" then [""]
  else
    let text := input_string.trim
    let exact := collapseDashes (wsCollapse text)
    let truncated := ((((text.splitOn "(").headD "").splitOn "[").headD "").trim
    let simplified := collapseDashes (wsCollapse truncated)
    if exact = simplified then [exact] else [exact, simplified]

/-- Spotify track as consumed by the matching engine: the fields of the
`SpotifyTrack` dict that `match` and the cache layer read.  `id` is
`Option String` because the source id may be `None` (local files); `isrc`
models `external_ids["isrc"]` when present. -/
structure SpotifyTrack where
  id : Option String
  name : String
  artists : List String
  duration_ms : ℤ
  isrc : Option String
deriving DecidableEq, Repr

/-- Tidal track as consumed by the matching engine (`tidalapi.Track` fields
read by `sync.py`). -/
structure TidalTrack where
  id : ℕ
  name : String
  artists : List String
  duration : ℤ
  isrc : Option String
  version : Option String
  available : Bool
deriving DecidableEq, Repr

/-- Python truthiness of the spotify id field (`not spotify_track['id']` is
true exactly when the id is `None` or the empty string). -/
def pyTruthyId : Option String → Bool
  | none => false
  | some s => !(s = "")

/-- Embedding of `isrc_match`: when the spotify track carries an ISRC the
result is the equality test `tidal_track.isrc == spotify isrc` (false when
the tidal code is absent); otherwise false. -/
def isrc_match (t : TidalTrack) (s : SpotifyTrack) : Bool :=
  match s.isrc with
  | some code => t.isrc = some code
  | none => false

/-- Embedding of `duration_match` (tolerance 2 seconds): the source compares
`abs(tidal.duration - spotify.duration_ms/1000) < 2`; over exact arithmetic
this is the scaled integral inequality used here (see
`duration_match_iff_rat`), which keeps the whole matcher kernel-computable. -/
def duration_match (t : TidalTrack) (s : SpotifyTrack) : Bool :=
  |1000 * t.duration - s.duration_ms| < 2000

/-- Embedding of the inner `exclusion_rule` of `name_match`: XOR of
pattern-containment between the spotify name and the tidal name-or-version. -/
def exclusion_rule (pattern : String) (t : TidalTrack) (s : SpotifyTrack) : Bool :=
  let spotify_has := strContains s.name.toLower pattern
  let tidal_has := strContains t.name.toLower pattern ||
    (match t.version with
     | some v => strContains v.toLower pattern
     | none => false)
  spotify_has != tidal_has

/-- Embedding of `name_match`: the exclusion rules for
instrumental/acapella/remix, then the simplified spotify name (clipped at
"feat.") must be a substring of the tidal name, raw or unicode-normalized. -/
def name_match (t : TidalTrack) (s : SpotifyTrack) : Bool :=
  if exclusion_rule "instrumental" t s then false
  else if exclusion_rule "acapella" t s then false
  else if exclusion_rule "remix" t s then false
  else
    let simple_spotify := ((((simple s.name).headD "").toLower.splitOn "feat.").headD "").trim
    strContains t.name.toLower simple_spotify ||
      strContains (normalizeText t.name.toLower) (normalizeText simple_spotify)

/-- Embedding of the inner `split_artist_name` of `artist_match`: split on
ampersand when present, else on comma when present, else on the lowercased
literal " and " when present, else keep whole. -/
def split_artist_name (artist : String) : List String :=
  if strContains artist "&" then artist.splitOn "&"
  else if strContains artist "," then artist.splitOn ","
  else if strContains artist.toLower " and " then artist.toLower.splitOn " and "
  else [artist]

/-- The atomic-artist-name set built by `get_tidal_artists` and
`get_spotify_artists`: optionally unicode-normalize each artist string, split
it into atomic names, then simplify + strip + lowercase each and collect into
a set. -/
def artistAtomSet (names : List String) (do_normalize : Bool) : Finset String :=
  ((names.foldr
      (fun n acc => split_artist_name (if do_normalize then normalizeText n else n) ++ acc) []).map
    (fun x => ((simple x.trim).headD "").toLower)).toFinset

/-- Embedding of `get_tidal_artists`. -/
def get_tidal_artists (t : TidalTrack) (do_normalize : Bool) : Finset String :=
  artistAtomSet t.artists do_normalize

/-- Embedding of `get_spotify_artists`. -/
def get_spotify_artists (s : SpotifyTrack) (do_normalize : Bool) : Finset String :=
  artistAtomSet s.artists do_normalize

/-- Embedding of `artist_match` (the track/album variant at sync.py:81): the
raw atomic-artist sets must intersect, else the normalized ones must. -/
def artist_match (t : TidalTrack) (s : SpotifyTrack) : Bool :=
  if get_tidal_artists t false ∩ get_spotify_artists s false ≠ ∅ then true
  else decide (get_tidal_artists t true ∩ get_spotify_artists s true ≠ ∅)

/-- Embedding of `match` from `sync.py` (Lean reserves the word, hence the
name): falsy source id gives false, then the ISRC short-circuit, then
duration, name and artist checks all required. -/
def matchTrack (t : TidalTrack) (s : SpotifyTrack) : Bool :=
  if !pyTruthyId s.id then false
  else isrc_match t s || (duration_match t s && name_match t s && artist_match t s)

/-- Python truthiness of `track_match_cache.get(...)` (an `int | None`): `None`
and `0` are falsy. -/
def pyTruthyOptNat : Option ℕ → Bool
  | none => false
  | some v => !(v = 0)

/-- The in-memory positive match cache `TrackMatchCache`: a string-keyed
mapping, embedded as an association list with dict semantics (update in
place, new keys appended in insertion order).  Keys carry the raw Python id
value, hence `Option String`. -/
abbrev Cache := List (Option String × ℕ)

/-- Embedding of `TrackMatchCache.get`. -/
def cacheGet : Cache → Option String → Option ℕ
  | [], _ => none
  | p :: rest, k => if p.1 = k then some p.2 else cacheGet rest k

/-- Embedding of `TrackMatchCache.insert` (dict assignment: overwrite the
entry for the key when present, else append it). -/
def cacheInsert : Cache → Option String → ℕ → Cache
  | [], k, v => [(k, v)]
  | p :: rest, k, v => if p.1 = k then (k, v) :: rest else p :: cacheInsert rest k v

/-- Embedding of `_populate_one_track_from_tidal`: scan the spotify list for
the first available match, record the pairing and consume that spotify track. -/
def populateOneFromTidal (t : TidalTrack) : List SpotifyTrack → Cache → List SpotifyTrack × Cache
  | [], c => ([], c)
  | s :: rest, c =>
    if t.available && matchTrack t s then (rest, cacheInsert c s.id t.id)
    else
      let r := populateOneFromTidal t rest c
      (s :: r.1, r.2)

/-- Embedding of `_populate_one_track_from_spotify`: scan the tidal list for
the first available match, record the pairing and consume that tidal track. -/
def populateOneFromSpotify (s : SpotifyTrack) : List TidalTrack → Cache → List TidalTrack × Cache
  | [], c => ([], c)
  | t :: rest, c =>
    if t.available && matchTrack t s then (rest, cacheInsert c s.id t.id)
    else
      let r := populateOneFromSpotify s rest c
      (t :: r.1, r.2)

/-- Embedding of `populate_track_match_cache`: first pass consumes spotify
tracks against each tidal track in order, second pass runs the remaining
spotify tracks against the (still complete) tidal list. -/
def populate_track_match_cache (S : List SpotifyTrack) (T : List TidalTrack) (c : Cache) : Cache :=
  let pass1 := T.foldl (fun acc t => populateOneFromTidal t acc.1 acc.2) (S, c)
  (pass1.1.foldl (fun acc s => populateOneFromSpotify s acc.1 acc.2) (T, pass1.2)).2

/-- Embedding of `get_new_spotify_tracks`: keep tracks with a truthy id that
have neither a truthy positive-cache hit nor a live failure record. -/
def get_new_spotify_tracks (c : Cache) (hasFailure : Option String → Bool)
    (S : List SpotifyTrack) : List SpotifyTrack :=
  S.filter (fun s =>
    pyTruthyId s.id && !pyTruthyOptNat (cacheGet c s.id) && !hasFailure s.id)

/-- Recursion of `get_tracks_for_new_tidal_playlist`: walk the spotify tracks
carrying the `seen_tracks` set, returning the output id list together with
the number of duplicate log lines printed. -/
def gtfntpAux (c : Cache) : List SpotifyTrack → List ℕ → List ℕ × ℕ
  | [], _ => ([], 0)
  | s :: rest, seen =>
    if pyTruthyId s.id then
      if pyTruthyOptNat (cacheGet c s.id) then
        let v := (cacheGet c s.id).getD 0
        if v ∈ seen then
          let r := gtfntpAux c rest seen
          (r.1, r.2 + 1)
        else
          let r := gtfntpAux c rest (v :: seen)
          (v :: r.1, r.2)
      else gtfntpAux c rest seen
    else gtfntpAux c rest seen

/-- Embedding of `get_tracks_for_new_tidal_playlist`: ordered tidal id list
for the spotify tracks, skipping falsy ids, cache misses and duplicates; the
second component counts the "Duplicate found" log lines. -/
def get_tracks_for_new_tidal_playlist (c : Cache) (S : List SpotifyTrack) : List ℕ × ℕ :=
  gtfntpAux c S []

/-- The candidate id stream before duplicate suppression: each source track
with a truthy id and a truthy positive-cache entry contributes its cached id,
in source order.  This is the reference stream the claim about
`get_tracks_for_new_tidal_playlist` is stated against. -/
def cacheCandidates (c : Cache) (S : List SpotifyTrack) : List ℕ :=
  S.filterMap (fun s =>
    if pyTruthyId s.id && pyTruthyOptNat (cacheGet c s.id) then some ((cacheGet c s.id).getD 0)
    else none)

/-- Keep the first occurrence of every id, dropping later repeats (reference
reformulation of duplicate suppression). -/
def dedupFirst (seen : List ℕ) : List ℕ → List ℕ
  | [] => []
  | x :: xs => if x ∈ seen then dedupFirst seen xs else x :: dedupFirst (x :: seen) xs

/-- Remote playlist mutations issued by the sync engine (`tidalapi_patch`
primitives; `removeTracks` exists in the patched API surface but is only ever
reached through `clearPlaylist`). -/
inductive TidalEffect
  | createPlaylist
  | clearPlaylist
  | addTracks (ids : List ℕ)
  | removeTracks (indices : List ℕ)
deriving DecidableEq, Repr

/-- The diff decision at the end of `sync_playlist` (lines 343-352): no-op
when equal, chunked append when the old list is a proper prefix, otherwise
clear followed by re-adding everything. -/
def playlist_update_effects (oldIds newIds : List ℕ) : List TidalEffect :=
  if newIds = oldIds then []
  else if newIds.take oldIds.length = oldIds then
    [TidalEffect.addTracks (newIds.drop oldIds.length)]
  else [TidalEffect.clearPlaylist, TidalEffect.addTracks newIds]

/-- Mutable state threaded through one sync run: the positive track cache,
the set of ids with a live negative-cache record, and the not-found report
lines (abstracted to the failing source ids). -/
structure SyncState where
  cache : Cache
  failures : List (Option String)
  report : List (Option String)
deriving DecidableEq, Repr

/-- Membership test on the live-failure id set (the embedding of
`failure_cache.has_match_failure` within one run, where a freshly recorded
failure is always live). -/
def failuresContains (f : List (Option String)) (k : Option String) : Bool :=
  f.any (fun x => x = k)

/-- Removal from the live-failure id set (`remove_match_failure`). -/
def failuresRemove (f : List (Option String)) (k : Option String) : List (Option String) :=
  f.filter (fun x => !(x = k))

/-- Insertion into the live-failure id set (`cache_match_failure` viewed at
the granularity of one run: recording a failure makes `has_match_failure`
true, whether the row is new or updated). -/
def failuresRecord (f : List (Option String)) (k : Option String) : List (Option String) :=
  if failuresContains f k then f else f ++ [k]

/-- One step of the result loop of `search_new_tracks_on_tidal` combined with
`tidal_search`: a found track is inserted into the positive cache and its
failure record removed; a miss records a match failure and a report line. -/
def searchStep (oracle : SpotifyTrack → Option TidalTrack) (st : SyncState)
    (s : SpotifyTrack) : SyncState :=
  match oracle s with
  | some t =>
      { cache := cacheInsert st.cache s.id t.id
        failures := failuresRemove st.failures s.id
        report := st.report }
  | none =>
      { cache := st.cache
        failures := failuresRecord st.failures s.id
        report := st.report ++ [s.id] }

/-- Embedding of `search_new_tracks_on_tidal`: compute the tracks still to
search; when none, return unchanged; otherwise process each search result in
source order. -/
def search_new_tracks_on_tidal (oracle : SpotifyTrack → Option TidalTrack)
    (S : List SpotifyTrack) (st : SyncState) : SyncState :=
  let toSearch := get_new_spotify_tracks st.cache (failuresContains st.failures) S
  if toSearch = [] then st
  else toSearch.foldl (searchStep oracle) st

/-- Result of one `sync_playlist` run: the final mutable state, the remote
effects issued, and the remote playlist's track-id list afterwards (`none`
when no playlist exists). -/
structure SyncResult where
  state : SyncState
  effects : List TidalEffect
  remote : Option (List ℕ)
deriving DecidableEq, Repr

/-- Embedding of `sync_playlist`: early return on an empty (post-filter)
spotify track list; otherwise create the playlist when absent, pre-populate
the cache, search the remaining tracks, and apply the diff decision. -/
def sync_playlist (oracle : SpotifyTrack → Option TidalTrack) (S : List SpotifyTrack)
    (existing : Option (List TidalTrack)) (st : SyncState) : SyncResult :=
  if S = [] then ⟨st, [], existing.map (fun ts => ts.map (fun t => t.id))⟩
  else
    let oldTidal := existing.getD []
    let createEff : List TidalEffect :=
      match existing with
      | some _ => []
      | none => [TidalEffect.createPlaylist]
    let c1 := populate_track_match_cache S oldTidal st.cache
    let st2 := search_new_tracks_on_tidal oracle S ⟨c1, st.failures, st.report⟩
    let newIds := (get_tracks_for_new_tidal_playlist st2.cache S).1
    let oldIds := oldTidal.map (fun t => t.id)
    let remote :=
      if newIds = oldIds then oldIds
      else if newIds.take oldIds.length = oldIds then oldIds ++ newIds.drop oldIds.length
      else newIds
    ⟨st2, createEff ++ playlist_update_effects oldIds newIds, some remote⟩

/-- A row of the persistent `match_failures` table of `MatchFailureDatabase`
(`cache.py`); times are seconds since an arbitrary epoch. -/
structure FailureRecord where
  track_id : String
  insert_time : ℤ
  next_retry : ℤ
deriving DecidableEq, Repr

/-- Seven days in seconds, the `datetime.timedelta(days=7)` initial backoff. -/
def sevenDays : ℤ := 7 * 86400

/-- Embedding of `MatchFailureDatabase._get_next_retry_time`: with an insert
time the interval doubles (`2 * (now - insert_time)`), without one it is the
fixed seven days.  A `datetime` argument is always truthy in Python, hence
the plain option match. -/
def get_next_retry_time (now : ℤ) (insert_time : Option ℤ) : ℤ :=
  match insert_time with
  | some t0 => now + 2 * (now - t0)
  | none => now + sevenDays

/-- Embedding of `MatchFailureDatabase.cache_match_failure`: update the
existing row's `next_retry` when the id is present, else insert a fresh row.
Both branches call `_get_next_retry_time()` with no argument, exactly as the
source does. -/
def cache_match_failure (db : List FailureRecord) (now : ℤ) (track_id : String) :
    List FailureRecord :=
  if (db.find? (fun r => r.track_id = track_id)).isSome then
    db.map (fun r =>
      if r.track_id = track_id then { r with next_retry := get_next_retry_time now none } else r)
  else db ++ [{ track_id := track_id, insert_time := now,
                next_retry := get_next_retry_time now none }]

/-- Embedding of `MatchFailureDatabase.has_match_failure`. -/
def has_match_failure (db : List FailureRecord) (now : ℤ) (track_id : String) : Bool :=
  match db.find? (fun r => r.track_id = track_id) with
  | some r => now < r.next_retry
  | none => false

/-- Outcome of one underlying network call inside `repeat_on_request_error`:
either a value or one of the caught request exceptions. -/
inductive CallResult (α : Type)
  | success (a : α)
  | netFailure
deriving DecidableEq, Repr

/-- Outcome of `repeat_on_request_error` as observed by the process: a value,
or `sys.exit(code)` which terminates the whole interpreter. -/
inductive RetryOutcome (α : Type)
  | ok (a : α)
  | exitProcess (code : ℕ)
deriving DecidableEq, Repr

/-- Embedding of `repeat_on_request_error`: the wrapped call is attempted
with `remaining` retries left (`remaining = 5` initially, so six attempts in
all); an exception with `remaining = 0` reaches `sys.exit(1)`.  The attempt
index feeds the call outcome function, standing for the changing network
state across attempts. -/
def repeat_on_request_error {α : Type} (f : ℕ → CallResult α) :
    ℕ → ℕ → RetryOutcome α
  | attempt, 0 =>
    match f attempt with
    | CallResult.success a => RetryOutcome.ok a
    | CallResult.netFailure => RetryOutcome.exitProcess 1
  | attempt, r + 1 =>
    match f attempt with
    | CallResult.success a => RetryOutcome.ok a
    | CallResult.netFailure => repeat_on_request_error f (attempt + 1) r

/-- Embedding of `sync_playlists_wrapper`: sync each playlist in turn; a
`sys.exit` propagates out of `asyncio.run` and kills the process, so the
remaining playlists are never synced.  Returns the playlists fully synced
and the exit code, if any. -/
def sync_playlists_wrapper {P : Type} (runSync : P → RetryOutcome Unit) :
    List P → List P × Option ℕ
  | [] => ([], none)
  | p :: rest =>
    match runSync p with
    | RetryOutcome.ok _ =>
        let r := sync_playlists_wrapper runSync rest
        (p :: r.1, r.2)
    | RetryOutcome.exitProcess c => ([], some c)

/-- Header block written before the track lines in `songs not found.txt`. -/
def songsHeader (playlist_name : String) : List String :=
  ["==========================", "Playlist: " ++ playlist_name,
   "=========================="]

/-- Header block written before the album lines in `albums not found.txt`. -/
def albumsHeader : List String :=
  ["==========================", "Saved Albums Sync",
   "=========================="]

/-- Embedding of the report write at the end of `search_new_tracks_on_tidal`:
`open("songs not found.txt", "a")` — append mode, the previous file content
survives.  The file is modelled as its list of lines. -/
def write_songs_not_found (file : List String) (playlist_name : String)
    (song404 : List String) : List String :=
  file ++ songsHeader playlist_name ++ song404

/-- Embedding of the report write at the end of `search_new_albums_on_tidal`:
guarded by `if albums_not_found:`, then `open("albums not found.txt", "a")` —
append mode. -/
def write_albums_not_found (file : List String) (albums_not_found : List String) :
    List String :=
  if albums_not_found = [] then file
  else file ++ albumsHeader ++ albums_not_found

/-- Embedding of the report write at the end of `search_new_artists_on_tidal`:
guarded by `if artists_not_found:`, then `open("artists not found.txt", "w")` —
write mode, the previous content is truncated. -/
def write_artists_not_found (file : List String) (artists_not_found : List String) :
    List String :=
  if artists_not_found = [] then file
  else artists_not_found

/-- Concrete source playlist for the idempotence analysis: the first track's
search fails although a remote track with the same ISRC exists (the catalog
search simply does not surface it), the other two resolve by search. -/
def cexU : SpotifyTrack :=
  { id := some "sU", name := "aaa", artists := ["pa"], duration_ms := 100000,
    isrc := some "Z" }

/-- Second concrete source track; its search resolves to `cexA`. -/
def cexS0 : SpotifyTrack :=
  { id := some "s0", name := "bbb", artists := ["pb"], duration_ms := 200000,
    isrc := some "Y" }

/-- Third concrete source track; its search resolves to `cexB`. -/
def cexS1 : SpotifyTrack :=
  { id := some "s1", name := "ccc", artists := ["pc"], duration_ms := 300000,
    isrc := some "Z" }

/-- Concrete tidal track carrying ISRC "Y". -/
def cexA : TidalTrack :=
  { id := 10, name := "ddd", artists := ["qa"], duration := 500,
    isrc := some "Y", version := none, available := true }

/-- Concrete tidal track carrying ISRC "Z"; it matches both `cexU` and
`cexS1` through the ISRC rule. -/
def cexB : TidalTrack :=
  { id := 20, name := "eee", artists := ["qb"], duration := 700,
    isrc := some "Z", version := none, available := true }

/-- Deterministic search oracle: finds `cexA` for `cexS0`, `cexB` for
`cexS1`, nothing for `cexU` (sound: each returned track satisfies `match`). -/
def cexOracle : SpotifyTrack → Option TidalTrack := fun s =>
  if s.id = some "s0" then some cexA
  else if s.id = some "s1" then some cexB
  else none

/-- The concrete source playlist, in order. -/
def cexPlaylist : List SpotifyTrack := [cexU, cexS0, cexS1]

/-- Trivial oracle that finds nothing (for the idempotence witness). -/
def noneOracle : SpotifyTrack → Option TidalTrack := fun _ => none

/-- One-track source playlist for the idempotence witness. -/
def wPlaylist : List SpotifyTrack :=
  [{ id := some "w", name := "www", artists := ["wa"], duration_ms := 1000,
     isrc := none }]

/-- The integral form of `duration_match` coincides exactly with the source's
rational expression `abs(duration - duration_ms/1000) < 2`. -/
theorem duration_match_iff_rat (t : TidalTrack) (s : SpotifyTrack) :
    duration_match t s = true ↔
      |(t.duration : ℚ) - (s.duration_ms : ℚ) / 1000| < 2 := by
  rw [duration_match, decide_eq_true_eq, abs_sub_lt_iff, abs_sub_lt_iff]
  constructor
  · rintro ⟨h1, h2⟩
    have h1q : ((1000 : ℚ) * t.duration - s.duration_ms < 2000) := by exact_mod_cast h1
    have h2q : ((s.duration_ms : ℚ) - 1000 * t.duration < 2000) := by exact_mod_cast h2
    exact ⟨by linarith, by linarith⟩
  · rintro ⟨h1, h2⟩
    constructor
    · exact_mod_cast (by linarith : (1000 : ℚ) * t.duration - s.duration_ms < 2000)
    · exact_mod_cast (by linarith : (s.duration_ms : ℚ) - 1000 * t.duration < 2000)

/-- Claim C1: playlist diff/patch trichotomy.  For every current remote id
list and desired id list the sync performs exactly one of three mutations:
nothing when they are equal; only an append of the missing suffix (no clear,
no remove) when the old list is an exact prefix of the new; otherwise a full
clear followed by re-adding every desired id in order. -/
theorem playlist_diff_trichotomy (oldIds newIds : List ℕ) :
    (newIds = oldIds → playlist_update_effects oldIds newIds = []) ∧
    (newIds ≠ oldIds → newIds.take oldIds.length = oldIds →
      playlist_update_effects oldIds newIds
          = [TidalEffect.addTracks (newIds.drop oldIds.length)] ∧
      TidalEffect.clearPlaylist ∉ playlist_update_effects oldIds newIds ∧
      ∀ idx, TidalEffect.removeTracks idx ∉ playlist_update_effects oldIds newIds) ∧
    (newIds ≠ oldIds → newIds.take oldIds.length ≠ oldIds →
      playlist_update_effects oldIds newIds
          = [TidalEffect.clearPlaylist, TidalEffect.addTracks newIds]) := by
  refine ⟨fun h => ?_, fun h1 h2 => ?_, fun h1 h2 => ?_⟩
  · simp [playlist_update_effects, h]
  · simp [playlist_update_effects, h1, h2]
  · simp [playlist_update_effects, h1, h2]

/-- Witness for the trichotomy theorem at three concrete inputs, one per
branch. -/
theorem playlist_diff_trichotomy_witness :
    playlist_update_effects [1, 2] [1, 2] = [] ∧
    (playlist_update_effects [1, 2] [1, 2, 3] = [TidalEffect.addTracks [3]] ∧
      TidalEffect.clearPlaylist ∉ playlist_update_effects [1, 2] [1, 2, 3] ∧
      ∀ idx, TidalEffect.removeTracks idx ∉ playlist_update_effects [1, 2] [1, 2, 3]) ∧
    playlist_update_effects [1, 2] [2, 1]
        = [TidalEffect.clearPlaylist, TidalEffect.addTracks [2, 1]] :=
  ⟨(playlist_diff_trichotomy [1, 2] [1, 2]).1 rfl,
   (playlist_diff_trichotomy [1, 2] [1, 2, 3]).2.1 (by decide) (by decide),
   (playlist_diff_trichotomy [1, 2] [2, 1]).2.2 (by decide) (by decide)⟩

/-- Claim C10: a sync run whose source playlist has zero (post-filter)
tracks returns immediately: no playlist creation, no clear, no append, the
cache/failure/report state untouched, and the remote playlist (when one
exists) keeps its previous track list. -/
theorem sync_playlist_empty_source_noop (oracle : SpotifyTrack → Option TidalTrack)
    (existing : Option (List TidalTrack)) (st : SyncState) :
    sync_playlist oracle [] existing st
      = ⟨st, [], existing.map (fun ts => ts.map (fun t => t.id))⟩ := by
  simp [sync_playlist]

/-- Claim C6: the ISRC short-circuit.  Whenever the source track has a
non-empty id and exposes an ISRC equal to the target track's (present) ISRC,
`match` returns true whatever the durations, names, versions and artists are. -/
theorem isrc_short_circuit (t : TidalTrack) (s : SpotifyTrack) (code : String)
    (hid : pyTruthyId s.id = true) (hs : s.isrc = some code) (ht : t.isrc = some code) :
    matchTrack t s = true := by
  simp [matchTrack, hid, isrc_match, hs, ht]

/-- Witness for the ISRC short-circuit: a concrete pair differing in name,
artists and duration but sharing the ISRC. -/
theorem isrc_short_circuit_witness :
    matchTrack
      { id := 5, name := "x", artists := ["ta"], duration := 50,
        isrc := some "USX17607839", version := none, available := true }
      { id := some "a", name := "y", artists := ["sa"], duration_ms := 500000,
        isrc := some "USX17607839" } = true :=
  isrc_short_circuit _ _ "USX17607839" (by decide) rfl rfl

/-- Claim C4, evaluated at the failing input: the first recorded failure for
an unknown id inserts `next_retry = now + 7 days` as claimed, but a second
failure 10 days later again sets `next_retry = now + 7 days`, not the claimed
`now + 2 * elapsed`, because `cache_match_failure` never passes the stored
`insert_time` to `_get_next_retry_time`. -/
theorem cache_match_failure_no_backoff_growth :
    cache_match_failure [] 0 "t"
        = [{ track_id := "t", insert_time := 0, next_retry := 604800 }] ∧
    cache_match_failure (cache_match_failure [] 0 "t") 864000 "t"
        = [{ track_id := "t", insert_time := 0, next_retry := 864000 + 604800 }] ∧
    (864000 + 604800 : ℤ) ≠ 864000 + 2 * (864000 - 0) ∧
    get_next_retry_time 864000 (some 0) = 864000 + 2 * (864000 - 0) := by
  refine ⟨by decide, by decide, by decide, by decide⟩

/-- Claim C9 fails on the code: the tracks and albums reports are opened in
append mode, so after two runs the file still contains the first run's
entries. -/
theorem report_files_append_counterexample :
    "run1 song" ∈ write_songs_not_found
        (write_songs_not_found [] "P" ["run1 song"]) "P" ["run2 song"] ∧
    "run1 album" ∈ write_albums_not_found
        (write_albums_not_found [] ["run1 album"]) ["run2 album"] := by
  decide

/-- Claim C9 as amended: only the artists report is overwritten each run
(its write drops every previous line); the tracks and albums reports are
appended to, every previous line surviving a later run. -/
theorem report_file_modes (prev : List String) (playlist_name : String)
    (songs albums artists : List String) (hart : artists ≠ []) (halb : albums ≠ []) :
    (∀ l, l ∈ write_artists_not_found prev artists → l ∈ artists) ∧
    (∀ l ∈ prev, l ∈ write_songs_not_found prev playlist_name songs) ∧
    (∀ l ∈ prev, l ∈ write_albums_not_found prev albums) := by
  refine ⟨?_, ?_, ?_⟩
  · intro l hl
    simpa [write_artists_not_found, hart] using hl
  · intro l hl
    simp [write_songs_not_found, hl]
  · intro l hl
    simp [write_albums_not_found, halb, hl]

/-- Witness for the report-mode theorem at a concrete prior file content. -/
theorem report_file_modes_witness :
    (∀ l, l ∈ write_artists_not_found ["x"] ["a"] → l ∈ ["a"]) ∧
    (∀ l ∈ (["x"] : List String), l ∈ write_songs_not_found ["x"] "P" ["s"]) ∧
    (∀ l ∈ (["x"] : List String), l ∈ write_albums_not_found ["x"] ["b"]) :=
  report_file_modes ["x"] "P" ["s"] ["b"] ["a"] (by decide) (by decide)

/-- Claim C5 fails on the code: exhausting the request-error retry budget
reaches `sys.exit(1)` even for a per-item search, and the exit kills the
whole process, so a batch of two playlists whose first sync exits leaves the
second playlist unsynced. -/
theorem retry_exhaustion_counterexample :
    repeat_on_request_error (fun _ => (CallResult.netFailure : CallResult ℕ)) 0 5
        = RetryOutcome.exitProcess 1 ∧
    sync_playlists_wrapper
        (fun p : ℕ => if p = 0 then RetryOutcome.exitProcess 1 else RetryOutcome.ok ())
        [0, 1]
      = ([], some 1) := by
  decide

/-- Claim C5 as amended: when every one of the six attempts of a retried
operation raises a request error, `repeat_on_request_error` ends in
`sys.exit(1)` — for per-item and collection-level calls alike — and an
exiting playlist sync aborts the entire remaining batch, which makes no
further progress. -/
theorem retry_exhaustion_exits_process {α : Type} (f : ℕ → CallResult α)
    (runSync : ℕ → RetryOutcome Unit) (p : ℕ) (rest : List ℕ)
    (hf : ∀ k, k ≤ 5 → f k = CallResult.netFailure)
    (hp : runSync p = RetryOutcome.exitProcess 1) :
    repeat_on_request_error f 0 5 = RetryOutcome.exitProcess 1 ∧
    sync_playlists_wrapper runSync (p :: rest) = ([], some 1) := by
  constructor
  · simp [repeat_on_request_error, hf 0 (by norm_num), hf 1 (by norm_num),
      hf 2 (by norm_num), hf 3 (by norm_num), hf 4 (by norm_num), hf 5 (by norm_num)]
  · simp [sync_playlists_wrapper, hp]

/-- Witness for the amended retry-exhaustion theorem at concrete inputs. -/
theorem retry_exhaustion_exits_process_witness :
    repeat_on_request_error (fun _ => (CallResult.netFailure : CallResult ℕ)) 0 5
        = RetryOutcome.exitProcess 1 ∧
    sync_playlists_wrapper (fun _ : ℕ => RetryOutcome.exitProcess 1) [7, 8]
        = ([], some 1) :=
  retry_exhaustion_exits_process (fun _ => CallResult.netFailure)
    (fun _ => RetryOutcome.exitProcess 1) 7 [8] (fun _ _ => rfl) rfl

/-- Claim C8: `artist_match` returns true exactly when the target's
atomic-artist-name set (each artist string split on ampersand, comma or the
literal " and ", each atomic name simplified and lowercased) intersects the
source's atomic-artist-name set, tried on the raw names or on the
unicode-normalized names — a single overlapping atomic name suffices. -/
theorem artist_match_iff_overlap (t : TidalTrack) (s : SpotifyTrack) :
    artist_match t s = true ↔
      ((get_tidal_artists t false ∩ get_spotify_artists s false).Nonempty ∨
       (get_tidal_artists t true ∩ get_spotify_artists s true).Nonempty) := by
  rw [artist_match]
  by_cases h : get_tidal_artists t false ∩ get_spotify_artists s false ≠ ∅
  · simp [h, Finset.nonempty_iff_ne_empty]
  · simp [h, Finset.nonempty_iff_ne_empty]

/-- Ids kept by `dedupFirst` never come from the already-seen set. -/
theorem dedupFirst_not_mem_seen :
    ∀ (l seen : List ℕ), ∀ x ∈ dedupFirst seen l, x ∉ seen
  | [], seen => by simp [dedupFirst]
  | y :: ys, seen => by
    by_cases h : y ∈ seen
    · simpa [dedupFirst, h] using dedupFirst_not_mem_seen ys seen
    · intro x hx
      rw [dedupFirst, if_neg h] at hx
      rcases List.mem_cons.1 hx with rfl | hx2
      · exact h
      · intro hs
        exact dedupFirst_not_mem_seen ys (y :: seen) x hx2 (List.mem_cons_of_mem _ hs)

/-- The id list produced by `dedupFirst` has no duplicates. -/
theorem dedupFirst_nodup : ∀ (l seen : List ℕ), (dedupFirst seen l).Nodup
  | [], seen => by simp [dedupFirst]
  | y :: ys, seen => by
    by_cases h : y ∈ seen
    · simpa [dedupFirst, h] using dedupFirst_nodup ys seen
    · rw [dedupFirst, if_neg h]
      refine List.nodup_cons.2 ⟨?_, dedupFirst_nodup ys (y :: seen)⟩
      intro hy
      exact dedupFirst_not_mem_seen ys (y :: seen) y hy (List.mem_cons_self _ _)

/-- Duplicate suppression never lengthens the list. -/
theorem dedupFirst_length_le : ∀ (l seen : List ℕ), (dedupFirst seen l).length ≤ l.length
  | [], _ => le_refl _
  | y :: ys, seen => by
    by_cases h : y ∈ seen
    · rw [dedupFirst, if_pos h]
      exact le_trans (dedupFirst_length_le ys seen) (Nat.le_succ _)
    · rw [dedupFirst, if_neg h]
      simpa using dedupFirst_length_le ys (y :: seen)

/-- Unfolding of the candidate stream over the first source track. -/
theorem cacheCandidates_cons (c : Cache) (s : SpotifyTrack) (rest : List SpotifyTrack) :
    cacheCandidates c (s :: rest)
      = if pyTruthyId s.id = true ∧ pyTruthyOptNat (cacheGet c s.id) = true
        then (cacheGet c s.id).getD 0 :: cacheCandidates c rest
        else cacheCandidates c rest := by
  by_cases h : pyTruthyId s.id = true ∧ pyTruthyOptNat (cacheGet c s.id) = true
  · simp [cacheCandidates, List.filterMap_cons, h]
  · simp only [cacheCandidates, List.filterMap_cons, if_neg h]
    rw [if_neg]
    intro hb
    exact h (by simpa [Bool.and_eq_true] using hb)

/-- The loop of `get_tracks_for_new_tidal_playlist`: starting from any seen
set it produces the first-occurrence deduplication of the candidate stream,
and one duplicate log line per suppressed candidate. -/
theorem gtfntpAux_eq (c : Cache) : ∀ (S : List SpotifyTrack) (seen : List ℕ),
    gtfntpAux c S seen
      = (dedupFirst seen (cacheCandidates c S),
         (cacheCandidates c S).length - (dedupFirst seen (cacheCandidates c S)).length)
  | [], seen => by simp [gtfntpAux, cacheCandidates, dedupFirst]
  | s :: rest, seen => by
    rw [cacheCandidates_cons]
    by_cases h1 : pyTruthyId s.id = true
    · by_cases h2 : pyTruthyOptNat (cacheGet c s.id) = true
      · rw [if_pos ⟨h1, h2⟩]
        by_cases h3 : (cacheGet c s.id).getD 0 ∈ seen
        · have hlen := dedupFirst_length_le (cacheCandidates c rest) seen
          have ihseen := gtfntpAux_eq c rest seen
          rw [dedupFirst, if_pos h3]
          simp [gtfntpAux, h1, h2, h3, ihseen]
          omega
        · have ihv := gtfntpAux_eq c rest ((cacheGet c s.id).getD 0 :: seen)
          rw [dedupFirst, if_neg h3]
          simp [gtfntpAux, h1, h2, h3, ihv]
      · rw [if_neg (fun hc => h2 hc.2)]
        have ihseen := gtfntpAux_eq c rest seen
        simp [gtfntpAux, h1, h2, ihseen]
    · rw [if_neg (fun hc => h1 hc.1)]
      have ihseen := gtfntpAux_eq c rest seen
      simp [gtfntpAux, h1, ihseen]

/-- Claim C3: the desired id list built by `get_tracks_for_new_tidal_playlist`
is exactly the first-occurrence deduplication of the candidate stream (each
source track with a truthy id and a positive-cache hit contributing its
cached id, in source order) — so it contains each id at most once, excludes
null-id and uncached source tracks, preserves the order of first occurrence,
and logs one duplicate line per suppressed repeat. -/
theorem get_tracks_for_new_tidal_playlist_spec (c : Cache) (S : List SpotifyTrack) :
    (get_tracks_for_new_tidal_playlist c S).1 = dedupFirst [] (cacheCandidates c S) ∧
    (get_tracks_for_new_tidal_playlist c S).1.Nodup ∧
    (get_tracks_for_new_tidal_playlist c S).2
      = (cacheCandidates c S).length - (dedupFirst [] (cacheCandidates c S)).length := by
  have h := gtfntpAux_eq c S []
  refine ⟨?_, ?_, ?_⟩
  · rw [get_tracks_for_new_tidal_playlist, h]
  · rw [get_tracks_for_new_tidal_playlist, h]
    exact dedupFirst_nodup _ _
  · rw [get_tracks_for_new_tidal_playlist, h]

/-- A track accepted by `match` necessarily has a truthy source id. -/
theorem matchTrack_id_truthy (t : TidalTrack) (s : SpotifyTrack)
    (h : matchTrack t s = true) : pyTruthyId s.id = true := by
  cases hb : pyTruthyId s.id
  · rw [matchTrack, hb] at h
    simp at h
  · rfl

/-- Inserting under one key leaves lookups of any other key unchanged. -/
theorem cacheGet_insert_of_ne : ∀ (c : Cache) (q k : Option String) (v : ℕ), q ≠ k →
    cacheGet (cacheInsert c q v) k = cacheGet c k
  | [], q, k, v, h => by simp [cacheInsert, cacheGet, h]
  | p :: rest, q, k, v, h => by
    by_cases hp : p.1 = q
    · have hpk : ¬ p.1 = k := fun hkk => h (hp.symm.trans hkk)
      rw [cacheInsert, if_pos hp, cacheGet, cacheGet, if_neg h, if_neg hpk]
    · rw [cacheInsert, if_neg hp, cacheGet, cacheGet]
      by_cases hkk : p.1 = k
      · rw [if_pos hkk, if_pos hkk]
      · rw [if_neg hkk, if_neg hkk]
        exact cacheGet_insert_of_ne rest q k v h

/-- The tidal-side pre-population scan never writes under a falsy key. -/
theorem populateOneFromTidal_get (t : TidalTrack) (k : Option String)
    (hk : pyTruthyId k = false) :
    ∀ (ss : List SpotifyTrack) (c : Cache),
      cacheGet (populateOneFromTidal t ss c).2 k = cacheGet c k
  | [], c => rfl
  | s :: rest, c => by
    rw [populateOneFromTidal]
    by_cases h : (t.available && matchTrack t s) = true
    · rw [if_pos h]
      have hmt : matchTrack t s = true := by
        simp only [Bool.and_eq_true] at h
        exact h.2
      have hidt := matchTrack_id_truthy t s hmt
      have hne : s.id ≠ k := fun he => by rw [he, hk] at hidt; cases hidt
      exact cacheGet_insert_of_ne c s.id k t.id hne
    · rw [if_neg h]
      simpa using populateOneFromTidal_get t k hk rest c

/-- The spotify-side pre-population scan never writes under a falsy key. -/
theorem populateOneFromSpotify_get (s : SpotifyTrack) (k : Option String)
    (hk : pyTruthyId k = false) :
    ∀ (ts : List TidalTrack) (c : Cache),
      cacheGet (populateOneFromSpotify s ts c).2 k = cacheGet c k
  | [], c => rfl
  | t :: rest, c => by
    rw [populateOneFromSpotify]
    by_cases h : (t.available && matchTrack t s) = true
    · rw [if_pos h]
      have hmt : matchTrack t s = true := by
        simp only [Bool.and_eq_true] at h
        exact h.2
      have hidt := matchTrack_id_truthy t s hmt
      have hne : s.id ≠ k := fun he => by rw [he, hk] at hidt; cases hidt
      exact cacheGet_insert_of_ne c s.id k t.id hne
    · rw [if_neg h]
      simpa using populateOneFromSpotify_get s k hk rest c

/-- First pre-population pass, lifted over the fold. -/
theorem pass1_fold_get (k : Option String) (hk : pyTruthyId k = false) :
    ∀ (T : List TidalTrack) (acc : List SpotifyTrack × Cache),
      cacheGet ((T.foldl (fun a t => populateOneFromTidal t a.1 a.2) acc).2) k
        = cacheGet acc.2 k
  | [], _ => rfl
  | t :: T2, acc => by
    rw [List.foldl_cons, pass1_fold_get k hk T2 (populateOneFromTidal t acc.1 acc.2)]
    exact populateOneFromTidal_get t k hk acc.1 acc.2

/-- Second pre-population pass, lifted over the fold. -/
theorem pass2_fold_get (k : Option String) (hk : pyTruthyId k = false) :
    ∀ (ss : List SpotifyTrack) (acc : List TidalTrack × Cache),
      cacheGet ((ss.foldl (fun a s => populateOneFromSpotify s a.1 a.2) acc).2) k
        = cacheGet acc.2 k
  | [], _ => rfl
  | s :: ss2, acc => by
    rw [List.foldl_cons, pass2_fold_get k hk ss2 (populateOneFromSpotify s acc.1 acc.2)]
    exact populateOneFromSpotify_get s k hk acc.1 acc.2

/-- Pre-population never creates or changes an entry under a falsy key. -/
theorem populate_get_falsy (S : List SpotifyTrack) (T : List TidalTrack) (c : Cache)
    (k : Option String) (hk : pyTruthyId k = false) :
    cacheGet (populate_track_match_cache S T c) k = cacheGet c k := by
  rw [populate_track_match_cache]
  exact (pass2_fold_get k hk _ _).trans (pass1_fold_get k hk T (S, c))

/-- Two booleans agreeing as propositions are equal. -/
theorem bool_eq_of_iff {a b : Bool} (h : a = true ↔ b = true) : a = b := by
  cases a <;> cases b <;> simp_all

/-- Failure-set membership is list membership. -/
theorem failuresContains_iff (f : List (Option String)) (k : Option String) :
    failuresContains f k = true ↔ k ∈ f := by
  rw [failuresContains, List.any_eq_true]
  constructor
  · rintro ⟨x, hx, he⟩
    simp only [decide_eq_true_eq] at he
    exact he ▸ hx
  · intro hk
    exact ⟨k, hk, by simp⟩

/-- Removing a different id from the failure set does not affect membership. -/
theorem failuresContains_remove_of_ne (f : List (Option String)) (q k : Option String)
    (h : k ≠ q) : failuresContains (failuresRemove f q) k = failuresContains f k := by
  apply bool_eq_of_iff
  rw [failuresContains_iff, failuresContains_iff, failuresRemove, List.mem_filter]
  constructor
  · exact fun hx => hx.1
  · intro hk
    exact ⟨hk, by simp [h]⟩

/-- Recording a different id in the failure set does not affect membership. -/
theorem failuresContains_record_of_ne (f : List (Option String)) (q k : Option String)
    (h : q ≠ k) : failuresContains (failuresRecord f q) k = failuresContains f k := by
  rw [failuresRecord]
  by_cases hq : failuresContains f q = true
  · rw [if_pos hq]
  · rw [if_neg hq]
    apply bool_eq_of_iff
    rw [failuresContains_iff, failuresContains_iff, List.mem_append]
    constructor
    · rintro (hk | hk)
      · exact hk
      · simp only [List.mem_singleton] at hk
        exact absurd hk.symm h
    · exact fun hk => Or.inl hk

/-- One search step touches the positive cache and failure set only at the
searched track's (truthy) id. -/
theorem searchStep_preserves (oracle : SpotifyTrack → Option TidalTrack)
    (st : SyncState) (s : SpotifyTrack) (k : Option String)
    (hk : pyTruthyId k = false) (hs : pyTruthyId s.id = true) :
    cacheGet (searchStep oracle st s).cache k = cacheGet st.cache k ∧
    failuresContains (searchStep oracle st s).failures k = failuresContains st.failures k := by
  have hne : s.id ≠ k := fun he => by rw [he, hk] at hs; cases hs
  rw [searchStep]
  cases oracle s with
  | some t =>
    exact ⟨cacheGet_insert_of_ne st.cache s.id k t.id hne,
           failuresContains_remove_of_ne st.failures s.id k (fun he => hne he.symm)⟩
  | none =>
    exact ⟨rfl, failuresContains_record_of_ne st.failures s.id k hne⟩

/-- The search result loop touches only the searched tracks' (truthy) ids. -/
theorem search_fold_preserves (oracle : SpotifyTrack → Option TidalTrack)
    (k : Option String) (hk : pyTruthyId k = false) :
    ∀ (l : List SpotifyTrack) (st : SyncState),
      (∀ s ∈ l, pyTruthyId s.id = true) →
      cacheGet ((l.foldl (searchStep oracle) st).cache) k = cacheGet st.cache k ∧
      failuresContains ((l.foldl (searchStep oracle) st).failures) k
        = failuresContains st.failures k
  | [], st, _ => ⟨rfl, rfl⟩
  | s :: rest, st, hall => by
    rw [List.foldl_cons]
    have hrest := search_fold_preserves oracle k hk rest (searchStep oracle st s)
      (fun x hx => hall x (List.mem_cons_of_mem _ hx))
    have hstep := searchStep_preserves oracle st s k hk (hall s (List.mem_cons_self _ _))
    exact ⟨hrest.1.trans hstep.1, hrest.2.trans hstep.2⟩

/-- Every track selected for searching has a truthy id. -/
theorem get_new_spotify_tracks_truthy (c : Cache) (hf : Option String → Bool)
    (S : List SpotifyTrack) :
    ∀ s ∈ get_new_spotify_tracks c hf S, pyTruthyId s.id = true := by
  intro s hs
  rw [get_new_spotify_tracks] at hs
  have := (List.mem_filter.mp hs).2
  simp only [Bool.and_eq_true] at this
  exact this.1.1

/-- Claim C7: a source track with an empty or null id never matches any
target track, is never selected for searching, and the pre-population and
search phases leave both the positive cache and the negative-failure set
unchanged at its id. -/
theorem null_id_unmatchable (t : TidalTrack) (s : SpotifyTrack)
    (S : List SpotifyTrack) (T : List TidalTrack) (c : Cache)
    (hf : Option String → Bool) (oracle : SpotifyTrack → Option TidalTrack)
    (st : SyncState) (hid : pyTruthyId s.id = false) :
    matchTrack t s = false ∧
    s ∉ get_new_spotify_tracks c hf S ∧
    cacheGet (populate_track_match_cache S T c) s.id = cacheGet c s.id ∧
    cacheGet (search_new_tracks_on_tidal oracle S st).cache s.id = cacheGet st.cache s.id ∧
    failuresContains (search_new_tracks_on_tidal oracle S st).failures s.id
      = failuresContains st.failures s.id := by
  refine ⟨?_, ?_, ?_, ?_, ?_⟩
  · rw [matchTrack, hid]
    rfl
  · intro hmem
    have := get_new_spotify_tracks_truthy c hf S s hmem
    rw [hid] at this
    cases this
  · exact populate_get_falsy S T c s.id hid
  · rw [search_new_tracks_on_tidal]
    by_cases he : get_new_spotify_tracks st.cache (failuresContains st.failures) S = []
    · rw [if_pos he]
    · rw [if_neg he]
      exact (search_fold_preserves oracle s.id hid _ st
        (get_new_spotify_tracks_truthy _ _ S)).1
  · rw [search_new_tracks_on_tidal]
    by_cases he : get_new_spotify_tracks st.cache (failuresContains st.failures) S = []
    · rw [if_pos he]
    · rw [if_neg he]
      exact (search_fold_preserves oracle s.id hid _ st
        (get_new_spotify_tracks_truthy _ _ S)).2

/-- Witness for the null-id theorem: a local-file style track with a null id
agreeing with the target on every other field, including the ISRC. -/
theorem null_id_unmatchable_witness :
    matchTrack
        { id := 9, name := "same", artists := ["same artist"], duration := 100,
          isrc := some "QQQ", version := none, available := true }
        { id := none, name := "same", artists := ["same artist"],
          duration_ms := 100000, isrc := some "QQQ" } = false ∧
    ({ id := none, name := "same", artists := ["same artist"],
       duration_ms := 100000, isrc := some "QQQ" } : SpotifyTrack)
      ∉ get_new_spotify_tracks [] (fun _ => false)
          [{ id := none, name := "same", artists := ["same artist"],
             duration_ms := 100000, isrc := some "QQQ" }] ∧
    cacheGet (populate_track_match_cache
        [{ id := none, name := "same", artists := ["same artist"],
           duration_ms := 100000, isrc := some "QQQ" }]
        [{ id := 9, name := "same", artists := ["same artist"], duration := 100,
           isrc := some "QQQ", version := none, available := true }] []) none
      = cacheGet [] none ∧
    cacheGet (search_new_tracks_on_tidal (fun _ => none)
        [{ id := none, name := "same", artists := ["same artist"],
           duration_ms := 100000, isrc := some "QQQ" }] ⟨[], [], []⟩).cache none
      = cacheGet [] none ∧
    failuresContains (search_new_tracks_on_tidal (fun _ => none)
        [{ id := none, name := "same", artists := ["same artist"],
           duration_ms := 100000, isrc := some "QQQ" }] ⟨[], [], []⟩).failures none
      = failuresContains [] none :=
  null_id_unmatchable
    { id := 9, name := "same", artists := ["same artist"], duration := 100,
      isrc := some "QQQ", version := none, available := true }
    { id := none, name := "same", artists := ["same artist"],
      duration_ms := 100000, isrc := some "QQQ" }
    [{ id := none, name := "same", artists := ["same artist"],
       duration_ms := 100000, isrc := some "QQQ" }]
    [{ id := 9, name := "same", artists := ["same artist"], duration := 100,
       isrc := some "QQQ", version := none, available := true }]
    [] (fun _ => false) (fun _ => none) ⟨[], [], []⟩ rfl

/-- After a non-trivial run the remote playlist's id list is exactly the
desired id list the run computed, in all three diff branches. -/
theorem sync_playlist_remote_eq (oracle : SpotifyTrack → Option TidalTrack)
    (S : List SpotifyTrack) (ex : Option (List TidalTrack)) (st : SyncState)
    (hS : S ≠ []) :
    (sync_playlist oracle S ex st).remote
      = some ((get_tracks_for_new_tidal_playlist
          (sync_playlist oracle S ex st).state.cache S).1) := by
  simp only [sync_playlist, if_neg hS]
  split_ifs with h1 h2
  · rw [h1]
  · congr 1
    nth_rewrite 1 [← h2]
    exact List.take_append_drop _ _
  · rfl

/-- When every source track is covered by the positive cache or a live
failure record, nothing is selected for searching. -/
theorem get_new_eq_nil_of_covered (c : Cache) (f : Option String → Bool)
    (S : List SpotifyTrack)
    (hcov : ∀ s ∈ S, pyTruthyId s.id = true →
      pyTruthyOptNat (cacheGet c s.id) = true ∨ f s.id = true) :
    get_new_spotify_tracks c f S = [] := by
  rw [get_new_spotify_tracks, List.filter_eq_nil_iff]
  intro s hs hcond
  simp only [Bool.and_eq_true] at hcond
  rcases hcov s hs hcond.1.1 with h | h
  · rw [h] at hcond
    simpa using hcond.1.2
  · rw [h] at hcond
    simpa using hcond.2

/-- Search is the identity when nothing is selected for searching. -/
theorem search_noop (oracle : SpotifyTrack → Option TidalTrack)
    (S : List SpotifyTrack) (st : SyncState)
    (h : get_new_spotify_tracks st.cache (failuresContains st.failures) S = []) :
    search_new_tracks_on_tidal oracle S st = st := by
  simp [search_new_tracks_on_tidal, h]

/-- A run against an existing playlist whose pre-population step changes
nothing and whose source tracks are all covered by the caches leaves the
state untouched and issues exactly the diff decision between the remote ids
and the desired ids. -/
theorem sync_playlist_stable_run (oracle : SpotifyTrack → Option TidalTrack)
    (S : List SpotifyTrack) (T2 : List TidalTrack) (st : SyncState) (hS : S ≠ [])
    (hpop : populate_track_match_cache S T2 st.cache = st.cache)
    (hcov : ∀ s ∈ S, pyTruthyId s.id = true →
        pyTruthyOptNat (cacheGet st.cache s.id) = true
        ∨ failuresContains st.failures s.id = true) :
    (sync_playlist oracle S (some T2) st).state = st ∧
    (sync_playlist oracle S (some T2) st).effects
      = playlist_update_effects (T2.map (fun t => t.id))
          ((get_tracks_for_new_tidal_playlist st.cache S).1) := by
  have hsearch : search_new_tracks_on_tidal oracle S
      ⟨populate_track_match_cache S T2 st.cache, st.failures, st.report⟩ = st := by
    rw [hpop]
    have heta : (⟨st.cache, st.failures, st.report⟩ : SyncState) = st := rfl
    rw [heta]
    exact search_noop oracle S st (get_new_eq_nil_of_covered _ _ S hcov)
  constructor
  · simp only [sync_playlist, if_neg hS, Option.getD_some]
    rw [hsearch]
  · simp only [sync_playlist, if_neg hS, Option.getD_some]
    rw [hsearch, List.nil_append]

/-- Claim C2 fails on the code: with source playlist `cexPlaylist` and a
fresh state, the first run leaves the remote playlist at ids [10, 20], yet a
second run over the unchanged source and that remote state recomputes the
desired list as [20, 10] — the pre-population pass pairs the previously
unmatched first track with remote track 20 — and issues a full
clear-and-re-add instead of a no-op. -/
theorem sync_twice_not_noop_counterexample :
    (sync_playlist cexOracle cexPlaylist none ⟨[], [], []⟩).remote
        = some ([cexA, cexB].map (fun t => t.id)) ∧
    (sync_playlist cexOracle cexPlaylist (some [cexA, cexB])
        (sync_playlist cexOracle cexPlaylist none ⟨[], [], []⟩).state).effects
      = [TidalEffect.clearPlaylist, TidalEffect.addTracks [20, 10]] := by
  constructor
  · decide
  · decide

/-- Claim C2 as amended: the second run is a no-op provided its
pre-population pass leaves the positive cache unchanged and every source
track with a truthy id is covered by the positive cache or a live negative
record when the second run starts (both hold when the first run matched or
negative-cached every track and pre-population discovers nothing new); then
the recomputed desired list equals the remote id list and no mutation is
issued. -/
theorem sync_twice_noop_of_stable_cache (oracle : SpotifyTrack → Option TidalTrack)
    (S : List SpotifyTrack) (ex0 : Option (List TidalTrack)) (st0 : SyncState)
    (T2 : List TidalTrack) (hS : S ≠ [])
    (hT2 : some (T2.map (fun t => t.id)) = (sync_playlist oracle S ex0 st0).remote)
    (hpop : populate_track_match_cache S T2 (sync_playlist oracle S ex0 st0).state.cache
        = (sync_playlist oracle S ex0 st0).state.cache)
    (hcov : ∀ s ∈ S, pyTruthyId s.id = true →
        pyTruthyOptNat (cacheGet (sync_playlist oracle S ex0 st0).state.cache s.id) = true
        ∨ failuresContains (sync_playlist oracle S ex0 st0).state.failures s.id = true) :
    (sync_playlist oracle S (some T2) (sync_playlist oracle S ex0 st0).state).effects = [] ∧
    (sync_playlist oracle S (some T2) (sync_playlist oracle S ex0 st0).state).state
      = (sync_playlist oracle S ex0 st0).state ∧
    (get_tracks_for_new_tidal_playlist
        (sync_playlist oracle S ex0 st0).state.cache S).1
      = T2.map (fun t => t.id) := by
  have hrem := sync_playlist_remote_eq oracle S ex0 st0 hS
  rw [hrem] at hT2
  have hids := Option.some.inj hT2
  have hstable := sync_playlist_stable_run oracle S T2
    (sync_playlist oracle S ex0 st0).state hS hpop hcov
  refine ⟨?_, hstable.1, hids.symm⟩
  rw [hstable.2, playlist_update_effects, if_pos hids.symm]

/-- Witness for the amended idempotence theorem: a one-track playlist whose
search fails; the first run leaves an empty remote playlist, a negative-cache
record and no positive-cache entry, so the second run is a no-op. -/
theorem sync_twice_noop_of_stable_cache_witness :
    (sync_playlist noneOracle wPlaylist
        (some ([] : List TidalTrack))
        (sync_playlist noneOracle wPlaylist none ⟨[], [], []⟩).state).effects = [] :=
  (sync_twice_noop_of_stable_cache noneOracle wPlaylist none ⟨[], [], []⟩ []
    (by decide) (by decide) (by decide) (by decide)).1
